import Mathlib

/-!
# GoodWatch firmware: stopwatch application and packet radio driver

A shallow embedding of `firmware/apps/stopwatch.c` and `firmware/packet.c`.

* C `int` variables (`counting`, `showtime`, `settingtimer`, `flicker`, the
  `forced` argument) are `Int`; a C condition `if(x)` is `x ≠ 0` and `!x` is
  `lnot x`.
* `uint8_t` and `uint16_t` variables are `Nat`, and every assignment to one
  reduces modulo `256` or `65536`.
* A key `ch` is the byte value of the C `char`.
* Calls into the rest of the firmware (LCD, buzzer, clock application, radio
  core) are recorded, in program order, in the list of effects a function
  returns next to the new state.
-/

/-! ## Stopwatch: data model -/

/-- The file-scope variables of `stopwatch.c`, together with the function-local
`static int flicker` of `timer_set_draw`. -/
structure StopwatchState where
  counting : Int
  showtime : Int
  settingtimer : Int
  count : Nat
  hour : Nat
  hourhex : Nat
  min : Nat
  minhex : Nat
  sec : Nat
  sechex : Nat
  hourtimer : Nat
  mintimer : Nat
  sectimer : Nat
  enabletimer : Nat
  flicker : Int
  deriving DecidableEq, Repr

/-- Calls that `stopwatch.c` makes into other modules of the firmware. -/
inductive Effect where
  | app_cleartimer
  | tone (freq duration : Nat)
  | draw_time (forced : Int)
  | lcd_zero
  | setplus (v : Nat)
  | setcolon (v : Nat)
  | lcd_digit (pos val : Nat)
  | lcd_cleardigit (pos : Nat)
  deriving DecidableEq, Repr

/-- The C operator `!` on an `int`. -/
def lnot (x : Int) : Int := if x = 0 then 1 else 0

/-- Modelled from the spec: `int2bcd` is declared in `api.h`, which is not among
the sources; the spec describes it as packing the tens and the ones of its
argument into the high and the low nibble. -/
def int2bcd (v : Nat) : Nat := (v / 10) * 16 + v % 10

/-- The table `subs[]`: the quarter-second phase rendered as BCD hundredths. -/
def subs : List Nat := [0, 0x25, 0x50, 0x75]

/-- The state at power-up: the static initialisers of `stopwatch.c` (variables
without an initialiser are zero). -/
def powerUp : StopwatchState :=
  { counting := 0, showtime := 0, settingtimer := 0, count := 0, hour := 0,
    hourhex := 0, min := 0, minhex := 0, sec := 0, sechex := 0, hourtimer := 0,
    mintimer := 0, sectimer := 0, enabletimer := 0, flicker := 0 }

/-! ## Stopwatch: `stopwatch_draw` -/

/-- Lines 179-206 of `stopwatch_draw`: advance `count` when counting, then the
seconds, minutes and hours cascade. -/
def tick (s : StopwatchState) : StopwatchState :=
  let s1 := if s.counting ≠ 0 then { s with count := (s.count + 1) % 65536 } else s
  let s2 :=
    if s1.count &&& 3 = 3 then
      { s1 with sec := (s1.sec + 1) % 256, sechex := int2bcd ((s1.sec + 1) % 256) % 256 }
    else s1
  let s3 :=
    if s2.sec ≥ 60 then
      { s2 with sec := (s2.sec - 60) % 256, sechex := int2bcd ((s2.sec - 60) % 256) % 256,
                min := (s2.min + 1) % 256, minhex := int2bcd ((s2.min + 1) % 256) % 256 }
    else s2
  if s3.min ≥ 60 then
    { s3 with min := (s3.min - 60) % 256, minhex := int2bcd ((s3.min - 60) % 256) % 256,
              hour := (s3.hour + 1) % 65536, hourhex := int2bcd ((s3.hour + 1) % 65536) % 256 }
  else s3

/-- The four tones of the alarm, in the order of lines 209-212. -/
def alarmTones : List Effect :=
  [Effect.tone 2048 250, Effect.tone 1024 250, Effect.tone 512 250, Effect.tone 256 250]

/-- Lines 208-213 of `stopwatch_draw`: the alarm comparison. -/
def alarm (s : StopwatchState) : List Effect :=
  if s.enabletimer ≠ 0 ∧ s.hourtimer = s.hour ∧ s.mintimer = s.min ∧ s.sectimer = s.sec then
    alarmTones
  else []

/-- The cursor blanking of `timer_set_draw` (its `switch`). -/
def cursorBlank (settingtimer flicker : Int) : List Effect :=
  if flicker = 0 then []
  else if settingtimer = 1 then [Effect.lcd_cleardigit 7]
  else if settingtimer = 2 then [Effect.lcd_cleardigit 6]
  else if settingtimer = 3 then [Effect.lcd_cleardigit 4]
  else if settingtimer = 4 then [Effect.lcd_cleardigit 3]
  else if settingtimer = 5 then [Effect.lcd_cleardigit 1]
  else if settingtimer = 6 then [Effect.lcd_cleardigit 0]
  else []

/-- The function `timer_set_draw`: show the alarm being edited, with the digit
under the cursor blanked on every other call. -/
def timer_set_draw (s : StopwatchState) : StopwatchState × List Effect :=
  let s1 := { s with flicker := Int.xor s.flicker 1 }
  let s2 := { s1 with sechex := int2bcd s1.sectimer % 256,
                      minhex := int2bcd s1.mintimer % 256,
                      hourhex := int2bcd s1.hourtimer % 256 }
  (s2,
    [Effect.lcd_digit 1 (s2.sechex >>> 4), Effect.lcd_digit 0 (s2.sechex &&& 0xF),
     Effect.lcd_digit 4 (s2.minhex >>> 4), Effect.lcd_digit 3 (s2.minhex &&& 0xF),
     Effect.lcd_digit 7 (s2.hourhex >>> 4), Effect.lcd_digit 6 (s2.hourhex &&& 0xF)]
    ++ cursorBlank s2.settingtimer s2.flicker)

/-- Lines 241-271 of `stopwatch_draw`: the digits of the elapsed time, as
`hhmmss` once an hour has passed and as `mmssSS` before. -/
def drawDigits (s : StopwatchState) (forced : Int) (subhex : Nat) : List Effect :=
  if s.hour ≠ 0 then
    [Effect.lcd_digit 1 (s.sechex >>> 4), Effect.lcd_digit 0 (s.sechex &&& 0xF)]
    ++ (if s.sec = 0 ∨ forced ≠ 0 then
          [Effect.lcd_digit 4 (s.minhex >>> 4), Effect.lcd_digit 3 (s.minhex &&& 0xF),
           Effect.lcd_digit 7 (s.hourhex >>> 4), Effect.lcd_digit 6 (s.hourhex &&& 0xF)]
        else [])
  else
    [Effect.lcd_digit 1 (subhex >>> 4), Effect.lcd_digit 0 (subhex &&& 0xF)]
    ++ (if subhex = 0 ∨ s.count = 1 ∨ forced ≠ 0 then
          [Effect.lcd_digit 4 (s.sechex >>> 4), Effect.lcd_digit 3 (s.sechex &&& 0xF)]
          ++ (if s.sec = 0 ∨ forced ≠ 0 then
                [Effect.lcd_digit 7 (s.minhex >>> 4), Effect.lcd_digit 6 (s.minhex &&& 0xF)]
              else [])
        else [])

/-- Lines 222-271 of `stopwatch_draw`: everything after the normal-mode block. -/
def drawBody (s : StopwatchState) (forced : Int) (subhex : Nat) :
    StopwatchState × List Effect :=
  let head : List Effect :=
    (if forced ≠ 0 then [Effect.lcd_zero] else [])
    ++ [Effect.setplus s.enabletimer, Effect.setcolon ((s.count >>> 1) &&& 1)]
  if s.settingtimer > 0 then
    let r := timer_set_draw s
    (r.1, head ++ r.2)
  else
    (s, head ++ drawDigits s forced subhex)

/-- The function `stopwatch_draw(forced)`. In digit-entry mode the local
`subhex` is never read, so its value there is immaterial. -/
def stopwatch_draw (s : StopwatchState) (forced : Int) : StopwatchState × List Effect :=
  if s.settingtimer < 1 then
    if forced = 0 ∧ s.counting = 0 then
      (s, [Effect.app_cleartimer])
    else
      let s1 := tick s
      let subhex := subs.getD (s1.count &&& 3) 0
      let tones := alarm s1
      if s1.showtime ≠ 0 then
        (s1, Effect.app_cleartimer :: tones ++ [Effect.draw_time 1])
      else
        let r := drawBody s1 forced subhex
        (r.1, Effect.app_cleartimer :: tones ++ r.2)
  else
    let r := drawBody s forced 0
    (r.1, Effect.app_cleartimer :: r.2)

/-! ## Stopwatch: `stopwatch_init` and `stopwatch_keypress` -/

/-- The function `stopwatch_init`. -/
def stopwatch_init (s : StopwatchState) : StopwatchState × List Effect :=
  stopwatch_draw
    { s with count := 0, hour := 0, hourhex := 0, min := 0, minhex := 0, sec := 0,
             sechex := 0, mintimer := 3, hourtimer := 0, sectimer := 0,
             enabletimer := 0, counting := 0 }
    1

/-- The `switch(settingtimer)` of the digit-entry branch of
`stopwatch_keypress`; case 6 falls through into `default`. -/
def enterDigit (s : StopwatchState) (inputdigit : Nat) : StopwatchState :=
  if s.settingtimer = 1 then
    { s with hourtimer := (inputdigit * 10 + s.hourtimer % 10) % 256,
             settingtimer := s.settingtimer + 1 }
  else if s.settingtimer = 2 then
    { s with hourtimer := (s.hourtimer - s.hourtimer % 10 + inputdigit) % 256,
             settingtimer := s.settingtimer + 1 }
  else if s.settingtimer = 3 then
    let m := (inputdigit * 10 + s.mintimer % 10) % 256
    { s with mintimer := if m > 59 then 59 else m, settingtimer := s.settingtimer + 1 }
  else if s.settingtimer = 4 then
    let m := (s.mintimer - s.mintimer % 10 + inputdigit) % 256
    { s with mintimer := if m > 59 then 59 else m, settingtimer := s.settingtimer + 1 }
  else if s.settingtimer = 5 then
    let v := (inputdigit * 10 + s.sectimer % 10) % 256
    { s with sectimer := if v > 59 then 59 else v, settingtimer := s.settingtimer + 1 }
  else if s.settingtimer = 6 then
    let v := (s.sectimer - s.sectimer % 10 + inputdigit) % 256
    { s with sectimer := if v > 59 then 59 else v,
             hourhex := 0, minhex := 0, sechex := 0, settingtimer := 0 }
  else
    { s with hourhex := 0, minhex := 0, sechex := 0, settingtimer := 0 }

/-- The function `stopwatch_keypress(ch)`: the new state and the return value
(non-zero asks the caller for a redraw). -/
def stopwatch_keypress (s : StopwatchState) (ch : Nat) : StopwatchState × Int :=
  if s.settingtimer < 1 then
    if ch = 43 then  -- the key +
      let s1 := { s with counting := lnot s.counting }
      (s1, lnot s1.counting)
    else if ch = 48 then  -- the key 0
      let s1 := { s with count := 0, hour := 0, hourhex := 0, min := 0, minhex := 0,
                         sec := 0, sechex := 0, showtime := 0 }
      (s1, lnot s1.counting)
    else if ch = 47 then  -- the key /
      let s1 := { s with showtime := 1 }
      (s1, lnot s1.counting)
    else if ch = 61 then  -- the key =
      let s1 := if lnot s.counting ≠ 0 then { s with settingtimer := 1 } else s
      (s1, lnot s1.counting)
    else if ch = 52 then  -- the key 4
      let s1 := if lnot (s.enabletimer : Int) ≠ 0 then { s with enabletimer := 1 }
                else { s with enabletimer := 0 }
      (s1, lnot s1.counting)
    else
      ({ s with showtime := 0 }, 1)
  else
    if ch = 61 then
      (enterDigit { s with settingtimer := 0 } 0, 1)
    else if ch &&& 0x30 = 0x30 then
      (enterDigit s (ch &&& 0x0F), 1)
    else
      (s, 1)

/-- Run `stopwatch_draw` once for each `forced` flag of the list, in order,
keeping only the state. -/
def draws (s : StopwatchState) : List Int → StopwatchState
  | [] => s
  | f :: fs => draws (stopwatch_draw s f).1 fs

/-- Press the keys of the list in order. Returns the final state and, for
each key, the value of `settingtimer` after it and the value returned. -/
def keypresses (s : StopwatchState) : List Nat → StopwatchState × List (Int × Int)
  | [] => (s, [])
  | ch :: chs =>
    let r := stopwatch_keypress s ch
    let rest := keypresses r.1 chs
    (rest.1, (r.1.settingtimer, r.2) :: rest.2)

/-- The key code of the decimal digit `d`. -/
def digitKey (d : Nat) : Nat := 48 + d

/-! ## Packet radio: data model -/

/-- The variables of `packet.c` and the three radio interrupt registers it
writes (16-bit words). -/
structure PacketState where
  rxbuffer : List Nat
  rxlen : Nat
  txbuffer : List Nat
  transmitting : Int
  receiving : Int
  RF1AIES : Nat
  RF1AIFG : Nat
  RF1AIE : Nat
  deriving DecidableEq, Repr

/-- The command strobes `packet.c` sends to the radio core. -/
inductive Strobe where
  | RF_SIDLE
  | RF_SRX
  | RF_SFRX
  | RF_STX
  deriving DecidableEq, Repr

/-- Calls that `packet.c` makes into the radio driver, the C library and the
CPU intrinsics. -/
inductive RadioOp where
  | radio_strobe (cmd : Strobe)
  | radio_readreg_RXBYTES
  | radio_readburstreg_RXFIFORD (len : Nat)
  | radio_writeburstreg_TXFIFOWR (bytes : List Nat) (len : Nat)
  | no_operation
  | printf (msg : String)
  | bic_SR_register_on_exit_LPM3
  deriving DecidableEq, Repr

/-- The constant `BIT9` of the MSP430 headers. -/
def BIT9 : Nat := 0x0200

/-- The 16-bit complement `~x`. -/
def compl16 (x : Nat) : Nat := 0xFFFF ^^^ (x % 65536)

/-- What `radio_readburstreg(RF_RXFIFORD, buf, len)` leaves in memory: the first
`len` bytes handed out by the FIFO, followed by what was in `buf` beyond
them. -/
def burstRead (buf fifo : List Nat) (len : Nat) : List Nat :=
  (List.range len).map (fun i => fifo.getD i 0) ++ buf.drop len

/-- The three modes of the engine, as `packet_isr` tells them apart. -/
inductive Mode where
  | Idle
  | Receiving
  | Transmitting
  deriving DecidableEq, Repr

/-- The mode `packet_isr` dispatches on: `if(receiving)`, `else
if(transmitting)`, `else`. -/
def mode (s : PacketState) : Mode :=
  if s.receiving ≠ 0 then Mode.Receiving
  else if s.transmitting ≠ 0 then Mode.Transmitting
  else Mode.Idle

/-! ## Packet radio: operations -/

/-- The function `packet_rxon`. -/
def packet_rxon (s : PacketState) : PacketState × List RadioOp :=
  ({ s with RF1AIES := (s.RF1AIES ||| BIT9) % 65536,
            RF1AIFG := s.RF1AIFG &&& compl16 BIT9,
            RF1AIE := (s.RF1AIE ||| BIT9) % 65536,
            receiving := 1 },
   [RadioOp.radio_strobe Strobe.RF_SIDLE, RadioOp.radio_strobe Strobe.RF_SRX])

/-- The function `packet_rxoff`. -/
def packet_rxoff (s : PacketState) : PacketState × List RadioOp :=
  ({ s with RF1AIE := s.RF1AIE &&& compl16 BIT9,
            RF1AIFG := s.RF1AIFG &&& compl16 BIT9,
            receiving := 0 },
   [RadioOp.radio_strobe Strobe.RF_SIDLE, RadioOp.radio_strobe Strobe.RF_SFRX])

/-- The function `packet_tx(buffer, length)`. -/
def packet_tx (s : PacketState) (buffer : List Nat) (length : Nat) :
    PacketState × List RadioOp :=
  ({ s with RF1AIES := (s.RF1AIES ||| BIT9) % 65536,
            RF1AIFG := s.RF1AIFG &&& compl16 BIT9,
            RF1AIE := (s.RF1AIE ||| BIT9) % 65536,
            transmitting := 1 },
   [RadioOp.radio_writeburstreg_TXFIFOWR buffer length, RadioOp.radio_strobe Strobe.RF_STX])

/-- The interrupt handler `packet_isr`. The hardware is an input: `iv` is the
value read from `RF1AIV`, `rxbytes` the value `radio_readreg(RXBYTES)` returns
and `fifo` the bytes the RX FIFO hands out. -/
def packet_isr (s : PacketState) (iv rxbytes : Nat) (fifo : List Nat) :
    PacketState × List RadioOp :=
  if iv &&& compl16 1 = 20 then
    if s.receiving ≠ 0 then
      let rxlen := rxbytes % 256
      ({ s with rxlen := rxlen, rxbuffer := burstRead s.rxbuffer fifo rxlen },
       [RadioOp.radio_readreg_RXBYTES, RadioOp.radio_readburstreg_RXFIFORD rxlen,
        RadioOp.no_operation,
        RadioOp.printf ("Received " ++ toString rxlen ++ " byte packet.\n"),
        RadioOp.bic_SR_register_on_exit_LPM3])
    else if s.transmitting ≠ 0 then
      ({ s with RF1AIE := s.RF1AIE &&& compl16 BIT9, transmitting := 0 },
       [RadioOp.printf "Transmitted packet.\n", RadioOp.bic_SR_register_on_exit_LPM3])
    else
      (s, [RadioOp.printf "Unexpected packet ISR.\n", RadioOp.bic_SR_register_on_exit_LPM3])
  else
    (s, [RadioOp.bic_SR_register_on_exit_LPM3])

/-- One call into the packet engine. -/
inductive PacketCall where
  | rxon
  | rxoff
  | tx (buffer : List Nat) (length : Nat)
  | isr (iv rxbytes : Nat) (fifo : List Nat)
  deriving DecidableEq, Repr

/-- The state after one call. -/
def packetStep (s : PacketState) : PacketCall → PacketState
  | PacketCall.rxon => (packet_rxon s).1
  | PacketCall.rxoff => (packet_rxoff s).1
  | PacketCall.tx buffer length => (packet_tx s buffer length).1
  | PacketCall.isr iv rxbytes fifo => (packet_isr s iv rxbytes fifo).1

/-- The state after a sequence of calls, in order. -/
def packetRun (s : PacketState) (calls : List PacketCall) : PacketState :=
  calls.foldl packetStep s

/-- The radio state at power-up, for buffers of `PACKETLEN + 2` and `PACKETLEN`
bytes (`PACKETLEN` is defined in `api.h`, which is not among the sources). -/
def packetPowerUp (PACKETLEN : Nat) : PacketState :=
  { rxbuffer := List.replicate (PACKETLEN + 2) 0, rxlen := 0,
    txbuffer := List.replicate PACKETLEN 0, transmitting := 0, receiving := 0,
    RF1AIES := 0, RF1AIFG := 0, RF1AIE := 0 }

/-! ## Definitions used to state the claims -/

/-- Whether an effect is a call of `tone`. -/
def isTone : Effect → Bool
  | Effect.tone _ _ => true
  | _ => false

/-- The calls of `tone` among the effects of one call, in order. -/
def tonesOf (evs : List Effect) : List Effect := evs.filter isTone

/-- A counting stopwatch in the middle of its second second (`count = 3`,
`sec = 1`) with the alarm enabled and set to 0:00:01. -/
def alarmCase : StopwatchState :=
  { powerUp with counting := 1, count := 3, sec := 1, sechex := 1, sectimer := 1,
                 enabletimer := 1 }

/-- The stopwatch after `stopwatch_init`, the key `+`, three quarter ticks and
the key `+` again: paused at `count = 3`, one second on the clock. -/
def pausedAtThree : StopwatchState :=
  { powerUp with count := 3, sec := 1, sechex := 1, mintimer := 3 }

/-- The range predicate on the decomposed time and on the alarm. -/
def RangeInv (s : StopwatchState) : Prop :=
  s.sec ≤ 59 ∧ s.min ≤ 59 ∧ s.mintimer ≤ 59 ∧ s.sectimer ≤ 59

instance (s : StopwatchState) : Decidable (RangeInv s) := by
  unfold RangeInv; infer_instance

/-- The keys after which `stopwatch_keypress` falls out of the normal-mode
`switch` through a `break`: `+`, `0`, `/`, `=` and `4`. -/
def isListedKey (ch : Nat) : Prop := ch = 43 ∨ ch = 48 ∨ ch = 47 ∨ ch = 61 ∨ ch = 52

/-- Digit-entry mode with the cursor on the first hour digit, as the key `=`
leaves a paused stopwatch after `stopwatch_init`. -/
def editingHour : StopwatchState := { powerUp with settingtimer := 1, mintimer := 3 }

/-- The reset state with the count running: every time field zero, normal
mode, `counting` set. -/
def resetCounting : StopwatchState := { powerUp with counting := 1 }

/-- While counting in normal mode with `count = n mod 65536`, the decomposed
time is that of `(n + 1) / 4` whole seconds. -/
def CountInv (n : Nat) (s : StopwatchState) : Prop :=
  s.settingtimer < 1 ∧ s.counting ≠ 0 ∧ s.count = n % 65536 ∧
  s.sec = (n + 1) / 4 % 60 ∧ s.min = (n + 1) / 4 / 60 % 60 ∧
  s.hour = (n + 1) / 4 / 60 / 60 % 65536

/-- The radio at power-up with sixty-byte packets (the size the header of
`packet.c` names), armed for reception by `packet_rxon`. -/
def rxArmed : PacketState := (packet_rxon (packetPowerUp 60)).1

/-- The radio at power-up with sixty-byte packets, after `packet_tx` of a
three-byte packet. -/
def txStarted : PacketState := (packet_tx (packetPowerUp 60) [1, 2, 3] 3).1

/-- One call into the stopwatch application. -/
inductive StopwatchCall where
  | init
  | key (ch : Nat)
  | draw (forced : Int)
  deriving DecidableEq, Repr

/-- The state after one call into the stopwatch application. -/
def stopwatchStep (s : StopwatchState) : StopwatchCall → StopwatchState
  | StopwatchCall.init => (stopwatch_init s).1
  | StopwatchCall.key ch => (stopwatch_keypress s ch).1
  | StopwatchCall.draw forced => (stopwatch_draw s forced).1

/-- The state after a sequence of calls, in order. -/
def stopwatchRun (s : StopwatchState) (calls : List StopwatchCall) : StopwatchState :=
  calls.foldl stopwatchStep s

/-- A stopwatch left in digit-entry mode (cursor on the first minute digit)
with `showtime` set, as the application can be left through
`stopwatch_exit`. -/
def leftEditing : StopwatchState :=
  { powerUp with settingtimer := 3, showtime := 1, count := 7, sec := 2, sechex := 2,
                 mintimer := 3 }

/-- Counting and digit entry are not both active. -/
def ModeExclusive (s : StopwatchState) : Prop := ¬ (s.counting ≠ 0 ∧ 1 ≤ s.settingtimer)

/-- Whether an effect is one of the display operations `lcd_digit`,
`lcd_cleardigit`, `lcd_zero`, `setcolon`, `setplus`. -/
def isDisplayOp : Effect → Bool
  | Effect.lcd_digit _ _ => true
  | Effect.lcd_cleardigit _ => true
  | Effect.lcd_zero => true
  | Effect.setcolon _ => true
  | Effect.setplus _ => true
  | _ => false

/-- The display operations among the effects of one call, in order. -/
def displayOps (evs : List Effect) : List Effect := evs.filter isDisplayOp

/-- The digit position that the `switch` of `timer_set_draw` blanks when the
cursor is at `settingtimer = k`, for `k` in 1..6. -/
def cursorDigit (k : Int) : Nat :=
  if k = 1 then 7 else if k = 2 then 6 else if k = 3 then 4 else if k = 4 then 3
  else if k = 5 then 1 else 0

/-- The display operations that show the alarm being edited: the `+` indicator,
the colon, and the six digits of the alarm. -/
def editorOps (s : StopwatchState) : List Effect :=
  [Effect.setplus s.enabletimer, Effect.setcolon ((s.count >>> 1) &&& 1),
   Effect.lcd_digit 1 ((int2bcd s.sectimer % 256) >>> 4),
   Effect.lcd_digit 0 ((int2bcd s.sectimer % 256) &&& 0xF),
   Effect.lcd_digit 4 ((int2bcd s.mintimer % 256) >>> 4),
   Effect.lcd_digit 3 ((int2bcd s.mintimer % 256) &&& 0xF),
   Effect.lcd_digit 7 ((int2bcd s.hourtimer % 256) >>> 4),
   Effect.lcd_digit 6 ((int2bcd s.hourtimer % 256) &&& 0xF)]

/-- Start the stopwatch, let four quarter ticks pass, pause it, then enter and
leave digit-entry mode with the key `=`. -/
def pauseAndEdit : List StopwatchCall :=
  [StopwatchCall.init, StopwatchCall.key 43, StopwatchCall.draw 0, StopwatchCall.draw 0,
   StopwatchCall.draw 0, StopwatchCall.draw 0, StopwatchCall.key 43, StopwatchCall.key 61,
   StopwatchCall.key 61]

/-- The display as the digit shown at each position: `lcd_digit(p, v)` sets
digit `p` to `v`, `lcd_zero` sets every digit to 0 and `lcd_cleardigit(p)`
blanks digit `p`; the other effects leave the digits alone. -/
def applyEffect (d : Nat → Option Nat) : Effect → Nat → Option Nat
  | Effect.lcd_digit pos val => fun q => if q = pos then some val else d q
  | Effect.lcd_zero => fun _ => some 0
  | Effect.lcd_cleardigit pos => fun q => if q = pos then none else d q
  | _ => d

/-- The display after the effects of one call, in order. -/
def display (d : Nat → Option Nat) (evs : List Effect) : Nat → Option Nat :=
  evs.foldl applyEffect d

/-- Run `stopwatch_draw` once for each `forced` flag of the list, keeping the
state and the display. -/
def drawsDisplay (s : StopwatchState) (d : Nat → Option Nat) :
    List Int → StopwatchState × (Nat → Option Nat)
  | [] => (s, d)
  | f :: fs => drawsDisplay (stopwatch_draw s f).1 (display d (stopwatch_draw s f).2) fs

/-- State and display after `stopwatch_init` from power-up (the display showing
`d0` before), the key `+` and `n` calls of `stopwatch_draw(0)`. -/
def startedDisplay (d0 : Nat → Option Nat) (n : Nat) : StopwatchState × (Nat → Option Nat) :=
  drawsDisplay (stopwatch_keypress (stopwatch_init powerUp).1 43).1
    (display d0 (stopwatch_init powerUp).2) (List.replicate n 0)

/-- A display with every digit blank. -/
def blankDisplay : Nat → Option Nat := fun _ => none

/-- The cached BCD bytes of seconds and minutes mirror `sec` and `min`. -/
def HexMirror (s : StopwatchState) : Prop :=
  s.sechex = int2bcd s.sec % 256 ∧ s.minhex = int2bcd s.min % 256

/-- The display shows `n` quarter seconds in the `mmssSS` format. -/
def ShowsElapsed (n : Nat) (d : Nat → Option Nat) : Prop :=
  d 7 = some (n / 4 / 60 / 10) ∧ d 6 = some (n / 4 / 60 % 10) ∧
  d 4 = some (n / 4 % 60 / 10) ∧ d 3 = some (n / 4 % 60 % 10) ∧
  d 1 = some (25 * (n % 4) / 10) ∧ d 0 = some (25 * (n % 4) % 10)

/-! ## Stopwatch: lemmas on `tick` and `stopwatch_draw` -/

theorem and_three (n : Nat) : n &&& 3 = n % 4 := Nat.and_pow_two_sub_one_eq_mod n 2

/-- Fields that `tick` never writes. -/
theorem tick_frame (s : StopwatchState) :
    (tick s).counting = s.counting ∧ (tick s).showtime = s.showtime ∧
    (tick s).settingtimer = s.settingtimer ∧ (tick s).hourtimer = s.hourtimer ∧
    (tick s).mintimer = s.mintimer ∧ (tick s).sectimer = s.sectimer ∧
    (tick s).enabletimer = s.enabletimer ∧ (tick s).flicker = s.flicker := by
  unfold tick
  refine ⟨?_, ?_, ?_, ?_, ?_, ?_, ?_, ?_⟩ <;> (simp only []; split_ifs <;> rfl)

/-- One counting tick, in terms of the number `X` of whole seconds on the
clock: the cascade adds one second exactly when the new count has phase 3. -/
theorem tick_cascade (s : StopwatchState) (X : Nat) (hc : s.counting ≠ 0)
    (hs : s.sec = X % 60) (hm : s.min = X / 60 % 60) (hh : s.hour = X / 60 / 60 % 65536) :
    (tick s).count = (s.count + 1) % 65536 ∧
    ((s.count + 1) % 65536 % 4 = 3 →
      (tick s).sec = (X + 1) % 60 ∧ (tick s).min = (X + 1) / 60 % 60 ∧
      (tick s).hour = (X + 1) / 60 / 60 % 65536) ∧
    ((s.count + 1) % 65536 % 4 ≠ 3 →
      (tick s).sec = X % 60 ∧ (tick s).min = X / 60 % 60 ∧
      (tick s).hour = X / 60 / 60 % 65536) := by
  unfold tick
  simp only [and_three, if_pos hc, hs, hm, hh]
  refine ⟨?_, ?_, ?_⟩
  · split_ifs <;> rfl
  · intro h3
    split_ifs <;> dsimp only at * <;> omega
  · intro h3
    split_ifs <;> dsimp only at * <;> omega

/-- In normal mode a call that gets past the early return leaves the state
`tick` computes: nothing after the cascade writes a variable. -/
theorem draw_state_of_run (s : StopwatchState) (forced : Int) (hmode : s.settingtimer < 1)
    (hrun : ¬ (forced = 0 ∧ s.counting = 0)) : (stopwatch_draw s forced).1 = tick s := by
  have hset : ¬ (tick s).settingtimer > 0 := by
    rw [(tick_frame s).2.2.1]; omega
  unfold stopwatch_draw
  rw [if_pos hmode, if_neg hrun]
  dsimp only
  split_ifs
  · rfl
  · unfold drawBody
    dsimp only
    rw [if_neg hset]

/-- In normal mode a call with `forced = 0` on a paused stopwatch returns at
once. -/
theorem draw_state_of_idle (s : StopwatchState) (hmode : s.settingtimer < 1)
    (hc : s.counting = 0) : stopwatch_draw s 0 = (s, [Effect.app_cleartimer]) := by
  unfold stopwatch_draw
  rw [if_pos hmode, if_pos ⟨rfl, hc⟩]

theorem tick_countInv (n : Nat) (s : StopwatchState) (h : CountInv n s) :
    CountInv (n + 1) (tick s) := by
  obtain ⟨h1, h2, h3, h4, h5, h6⟩ := h
  have hf := tick_frame s
  obtain ⟨hcount, hyes, hno⟩ := tick_cascade s ((n + 1) / 4) h2 h4 h5 h6
  have hc : (tick s).count = (n + 1) % 65536 := by rw [hcount, h3]; omega
  refine ⟨by rw [hf.2.2.1]; exact h1, by rw [hf.1]; exact h2, hc, ?_⟩
  by_cases h3 : (s.count + 1) % 65536 % 4 = 3
  · have hX : (n + 1 + 1) / 4 = (n + 1) / 4 + 1 := by omega
    rw [hX]; exact hyes h3
  · have hX : (n + 1 + 1) / 4 = (n + 1) / 4 := by omega
    rw [hX]; exact hno h3

theorem draws_countInv (fs : List Int) :
    ∀ (n : Nat) (s : StopwatchState), CountInv n s → CountInv (n + fs.length) (draws s fs) := by
  induction fs with
  | nil => intro n s h; simpa [draws] using h
  | cons f fs ih =>
    intro n s h
    have hstep : (stopwatch_draw s f).1 = tick s :=
      draw_state_of_run s f h.1 (fun hh => h.2.1 hh.2)
    have hnext := ih (n + 1) (tick s) (tick_countInv n s h)
    simp only [draws, hstep, List.length_cons]
    have hlen : n + (fs.length + 1) = n + 1 + fs.length := by omega
    rw [hlen]; exact hnext

/-! ## Stopwatch: the claims -/

/-- C1, as amended: from the reset state with counting true, after `n` calls of
`stopwatch_draw` with `n` in [0, 65535] (any forced flags), `count = n` and the
decomposed time is that of `n + 1` quarter ticks: `sec = ((n+1)/4) mod 60`,
`min = ((n+1)/240) mod 60`, `hour = (n+1)/14400`. -/
theorem C1_cascade_after_n_draws (s : StopwatchState) (fs : List Int)
    (hmode : s.settingtimer < 1) (hcounting : s.counting ≠ 0)
    (hcount : s.count = 0) (hhour : s.hour = 0) (hmin : s.min = 0) (hsec : s.sec = 0)
    (hn : fs.length ≤ 65535) :
    (draws s fs).count = fs.length ∧
    (draws s fs).sec = (fs.length + 1) / 4 % 60 ∧
    (draws s fs).min = (fs.length + 1) / 240 % 60 ∧
    (draws s fs).hour = (fs.length + 1) / 14400 := by
  have h0 : CountInv 0 s := ⟨hmode, hcounting, by simp [hcount], by simp [hsec],
    by simp [hmin], by simp [hhour]⟩
  have h := draws_countInv fs 0 s h0
  obtain ⟨-, -, h3, h4, h5, h6⟩ := h
  rw [Nat.zero_add] at h3 h4 h5 h6
  refine ⟨by rw [h3]; omega, h4, by rw [h5]; omega, by rw [h6]; omega⟩

/-- Witness for C1: sixteen calls from the reset state. -/
theorem C1_cascade_after_n_draws_witness :
    (draws resetCounting (List.replicate 16 0)).count = 16 ∧
    (draws resetCounting (List.replicate 16 0)).sec = 4 ∧
    (draws resetCounting (List.replicate 16 0)).min = 0 ∧
    (draws resetCounting (List.replicate 16 0)).hour = 0 :=
  C1_cascade_after_n_draws resetCounting (List.replicate 16 0)
    (by decide) (by decide) rfl rfl rfl rfl (by decide)

/-- C1, as stated, fails at `n = 3`: after three calls from the reset state
`count = 3` and `sec` is already 1, while `(3/4) mod 60 = 0`. -/
theorem C1_counterexample :
    resetCounting.count = 0 ∧ resetCounting.hour = 0 ∧ resetCounting.min = 0 ∧
    resetCounting.sec = 0 ∧ resetCounting.settingtimer < 1 ∧ resetCounting.counting ≠ 0 ∧
    (draws resetCounting [0, 0, 0]).count = 3 ∧
    (draws resetCounting [0, 0, 0]).sec = 1 ∧
    (draws resetCounting [0, 0, 0]).sec ≠ 3 / 4 % 60 := by
  decide

/-- Nothing after the alarm comparison calls `tone`. -/
theorem tonesOf_drawBody (s : StopwatchState) (forced : Int) (subhex : Nat) :
    tonesOf (drawBody s forced subhex).2 = [] := by
  unfold drawBody timer_set_draw drawDigits cursorBlank tonesOf
  dsimp only
  split_ifs <;> rfl

theorem tonesOf_alarm (s : StopwatchState) : tonesOf (alarm s) = alarm s := by
  unfold alarm
  split_ifs <;> rfl

theorem tonesOf_cons_append (xs ys : List Effect) :
    tonesOf (Effect.app_cleartimer :: xs ++ ys) = tonesOf xs ++ tonesOf ys := by
  simp [tonesOf, isTone]

theorem nil_ne_alarmTones : ([] : List Effect) ≠ alarmTones := by decide

/-- The tones of one normal-mode call that gets past the early return are
those of the alarm comparison on the state after the cascade. -/
theorem tonesOf_draw_of_run (s : StopwatchState) (forced : Int) (hmode : s.settingtimer < 1)
    (hrun : ¬ (forced = 0 ∧ s.counting = 0)) :
    tonesOf (stopwatch_draw s forced).2 = alarm (tick s) := by
  unfold stopwatch_draw
  rw [if_pos hmode, if_neg hrun]
  dsimp only
  split_ifs
  · rw [tonesOf_cons_append, tonesOf_alarm]
    exact List.append_nil _
  · rw [tonesOf_cons_append, tonesOf_alarm, tonesOf_drawBody]
    exact List.append_nil _

/-- C2, as amended: in normal mode a call of `stopwatch_draw` emits the
four-tone alarm sequence if and only if the call gets past the early return
(`forced` non-zero or counting), `enabletimer` is set and (hour, min, sec)
after the cascade equals (hourtimer, mintimer, sectimer); otherwise it emits
no tone at all. Whether the call incremented `sec` plays no part. -/
theorem C2_alarm_iff_time_matches (s : StopwatchState) (forced : Int)
    (hmode : s.settingtimer < 1) :
    (tonesOf (stopwatch_draw s forced).2 = alarmTones ∨
      tonesOf (stopwatch_draw s forced).2 = []) ∧
    (tonesOf (stopwatch_draw s forced).2 = alarmTones ↔
      (forced ≠ 0 ∨ s.counting ≠ 0) ∧ (stopwatch_draw s forced).1.enabletimer ≠ 0 ∧
      (stopwatch_draw s forced).1.hourtimer = (stopwatch_draw s forced).1.hour ∧
      (stopwatch_draw s forced).1.mintimer = (stopwatch_draw s forced).1.min ∧
      (stopwatch_draw s forced).1.sectimer = (stopwatch_draw s forced).1.sec) := by
  by_cases hrun : forced = 0 ∧ s.counting = 0
  · obtain ⟨hf, hc⟩ := hrun
    subst hf
    rw [draw_state_of_idle s hmode hc]
    have he : tonesOf (s, [Effect.app_cleartimer]).2 = [] := rfl
    rw [he]
    refine ⟨Or.inr rfl, ?_⟩
    constructor
    · intro h; exact absurd h nil_ne_alarmTones
    · rintro ⟨h, -⟩
      rcases h with h | h
      · exact absurd rfl h
      · exact absurd hc h
  · have hgate : forced ≠ 0 ∨ s.counting ≠ 0 := by
      by_contra hcon
      push_neg at hcon
      exact hrun hcon
    rw [tonesOf_draw_of_run s forced hmode hrun, draw_state_of_run s forced hmode hrun]
    unfold alarm
    split_ifs with hcond
    · exact ⟨Or.inl rfl, fun _ => ⟨hgate, hcond⟩, fun _ => rfl⟩
    · exact ⟨Or.inr rfl, fun h => absurd h nil_ne_alarmTones, fun h => absurd h.2 hcond⟩

/-- Witness for C2: the alarm set to 0:00:01 on a stopwatch reaching its
second second. -/
theorem C2_alarm_iff_time_matches_witness :
    alarmCase.settingtimer < 1 ∧
    tonesOf (stopwatch_draw alarmCase 0).2 = alarmTones :=
  ⟨by decide,
   (C2_alarm_iff_time_matches alarmCase 0 (by decide)).2.2
     ⟨Or.inr (by decide), by decide, by decide, by decide, by decide⟩⟩

/-- C2, as stated, fails: on `alarmCase` the call moves `count` from 3 to 4,
does not increment `sec`, and emits the alarm; the next call (count 5, the same
second) emits it again. -/
theorem C2_counterexample :
    alarmCase.settingtimer < 1 ∧
    (stopwatch_draw alarmCase 0).1.count &&& 3 ≠ 3 ∧
    (stopwatch_draw alarmCase 0).1.sec = alarmCase.sec ∧
    tonesOf (stopwatch_draw alarmCase 0).2 = alarmTones ∧
    (stopwatch_draw (stopwatch_draw alarmCase 0).1 0).1.sec = alarmCase.sec ∧
    tonesOf (stopwatch_draw (stopwatch_draw alarmCase 0).1 0).2 = alarmTones := by
  decide

/-- C3 fails on the code: `pausedAtThree` is reached from power-up by
`stopwatch_init`, `+`, three quarter ticks and `+` (which returns 1, asking for
a redraw); it is paused in normal mode, and the forced redraw leaves `count`
at 3 but moves `sec` from 1 to 2. A call with `forced = 0` changes nothing. -/
theorem C3_paused_forced_draw_advances_sec :
    (stopwatch_keypress
      (draws (stopwatch_keypress (stopwatch_init powerUp).1 43).1 [0, 0, 0]) 43)
      = (pausedAtThree, 1) ∧
    pausedAtThree.counting = 0 ∧ pausedAtThree.settingtimer < 1 ∧
    (stopwatch_draw pausedAtThree 0).1 = pausedAtThree ∧
    (stopwatch_draw pausedAtThree 1).1.count = pausedAtThree.count ∧
    pausedAtThree.sec = 1 ∧ (stopwatch_draw pausedAtThree 1).1.sec = 2 := by
  decide

/-- C4: in normal mode the key `0` zeroes `count`, `hour`, `min`, `sec`, the
cached BCD bytes `hourhex`, `minhex`, `sechex`, and `showtime`. -/
theorem C4_clear_key_zeroes (s : StopwatchState) (hmode : s.settingtimer < 1) :
    (stopwatch_keypress s 48).1.count = 0 ∧ (stopwatch_keypress s 48).1.hour = 0 ∧
    (stopwatch_keypress s 48).1.min = 0 ∧ (stopwatch_keypress s 48).1.sec = 0 ∧
    (stopwatch_keypress s 48).1.hourhex = 0 ∧ (stopwatch_keypress s 48).1.minhex = 0 ∧
    (stopwatch_keypress s 48).1.sechex = 0 ∧ (stopwatch_keypress s 48).1.showtime = 0 := by
  unfold stopwatch_keypress
  rw [if_pos hmode]
  simp

/-- Witness for C4: clearing the paused stopwatch of `pausedAtThree`. -/
theorem C4_clear_key_zeroes_witness :
    pausedAtThree.settingtimer < 1 ∧ (stopwatch_keypress pausedAtThree 48).1.count = 0 ∧
    (stopwatch_keypress pausedAtThree 48).1.sec = 0 ∧
    (stopwatch_keypress pausedAtThree 48).1.sechex = 0 :=
  ⟨by decide, (C4_clear_key_zeroes pausedAtThree (by decide)).1,
   (C4_clear_key_zeroes pausedAtThree (by decide)).2.2.2.1,
   (C4_clear_key_zeroes pausedAtThree (by decide)).2.2.2.2.2.2.1⟩

/-- C5, as amended: in normal mode `stopwatch_keypress(ch)` returns 0 if and
only if `ch` is `+` and counting was false when the key arrived, or `ch` is one
of `0`, `/`, `=`, `4` and counting was true; that is, `ch` is a listed key and
counting is true once the key has taken effect. In every other case it
returns 1. -/
theorem C5_keypress_return_value (s : StopwatchState) (ch : Nat)
    (hmode : s.settingtimer < 1) :
    ((stopwatch_keypress s ch).2 = 0 ↔
      (ch = 43 ∧ s.counting = 0) ∨
      ((ch = 48 ∨ ch = 47 ∨ ch = 61 ∨ ch = 52) ∧ s.counting ≠ 0)) ∧
    ((stopwatch_keypress s ch).2 = 0 ↔
      isListedKey ch ∧ (stopwatch_keypress s ch).1.counting ≠ 0) ∧
    ((stopwatch_keypress s ch).2 ≠ 0 → (stopwatch_keypress s ch).2 = 1) := by
  unfold stopwatch_keypress isListedKey lnot
  rw [if_pos hmode]
  by_cases hc : s.counting = 0 <;>
    split_ifs <;> simp_all

/-- Witness for C5: the key `0` on a counting stopwatch returns 0. -/
theorem C5_keypress_return_value_witness :
    resetCounting.settingtimer < 1 ∧ (stopwatch_keypress resetCounting 48).2 = 0 :=
  ⟨by decide,
   (C5_keypress_return_value resetCounting 48 (by decide)).1.2
     (Or.inr ⟨Or.inl rfl, by decide⟩)⟩

/-- C5, as stated, fails: on a counting stopwatch in normal mode the key `+`
returns 1 and the key `=` returns 0; on a paused one the key `+` returns 0. -/
theorem C5_counterexample :
    resetCounting.settingtimer < 1 ∧ resetCounting.counting ≠ 0 ∧
    (stopwatch_keypress resetCounting 43).2 = 1 ∧
    (stopwatch_keypress resetCounting 61).2 = 0 ∧
    powerUp.settingtimer < 1 ∧ powerUp.counting = 0 ∧
    (stopwatch_keypress powerUp 43).2 = 0 := by
  decide

/-- In digit-entry mode a key whose code does not have both bits of `0x30`
set is not `=`, changes no variable and returns 1. -/
theorem keypress_of_no_digit_bits (s : StopwatchState) (ch : Nat)
    (hmode : 1 ≤ s.settingtimer) (hch : ch &&& 0x30 ≠ 0x30) :
    stopwatch_keypress s ch = (s, 1) ∧ ch ≠ 61 := by
  have hne : ch ≠ 61 := by
    rintro rfl
    exact hch (by decide)
  unfold stopwatch_keypress
  rw [if_neg (by omega), if_neg hne, if_neg hch]
  exact ⟨rfl, hne⟩

theorem tick_range (s : StopwatchState) (h : RangeInv s) : RangeInv (tick s) := by
  obtain ⟨h1, h2, h3, h4⟩ := h
  unfold tick RangeInv
  dsimp only
  split_ifs <;> (try dsimp only at *) <;> omega

/-- The state `drawBody` leaves: only `timer_set_draw` writes variables. -/
theorem drawBody_state (s : StopwatchState) (forced : Int) (subhex : Nat) :
    (drawBody s forced subhex).1 = if s.settingtimer > 0 then (timer_set_draw s).1 else s := by
  unfold drawBody
  dsimp only
  split_ifs <;> rfl

theorem drawBody_range (s : StopwatchState) (forced : Int) (subhex : Nat) (h : RangeInv s) :
    RangeInv (drawBody s forced subhex).1 := by
  rw [drawBody_state]
  split_ifs
  · exact h
  · exact h

theorem draw_range (s : StopwatchState) (forced : Int) (h : RangeInv s) :
    RangeInv (stopwatch_draw s forced).1 := by
  unfold stopwatch_draw
  dsimp only
  split_ifs
  · exact h
  · exact tick_range s h
  · exact drawBody_range _ _ _ (tick_range s h)
  · exact drawBody_range _ _ _ h

theorem enterDigit_range (s : StopwatchState) (d : Nat) (h : RangeInv s) :
    RangeInv (enterDigit s d) := by
  obtain ⟨h1, h2, h3, h4⟩ := h
  unfold enterDigit RangeInv
  dsimp only
  split_ifs <;> dsimp only <;> omega

theorem keypress_range (s : StopwatchState) (ch : Nat) (h : RangeInv s) :
    RangeInv (stopwatch_keypress s ch).1 := by
  unfold stopwatch_keypress
  dsimp only
  split_ifs
  · exact h
  · exact ⟨Nat.zero_le _, Nat.zero_le _, h.2.2.1, h.2.2.2⟩
  · exact h
  · exact h
  · exact h
  · exact h
  · exact h
  · exact h
  · exact enterDigit_range _ _ h
  · exact enterDigit_range _ _ h
  · exact h

/-- C7: the range predicate `sec <= 59`, `min <= 59`, `mintimer <= 59`,
`sectimer <= 59` holds after `stopwatch_init` from any state, and is preserved
by `stopwatch_keypress` for every key and by `stopwatch_draw` for every forced
flag, in normal and in digit-entry mode. -/
theorem C7_range_invariant (s0 s : StopwatchState) (ch : Nat) (forced : Int)
    (h : RangeInv s) :
    RangeInv (stopwatch_init s0).1 ∧ RangeInv (stopwatch_keypress s ch).1 ∧
    RangeInv (stopwatch_draw s forced).1 := by
  refine ⟨?_, keypress_range s ch h, draw_range s forced h⟩
  unfold stopwatch_init
  apply draw_range
  exact ⟨Nat.zero_le _, Nat.zero_le _, by simp, Nat.zero_le _⟩

/-- Witness for C7: the digit 9 on the first minute digit (composing 93) is
clamped. -/
theorem C7_range_invariant_witness :
    RangeInv { editingHour with settingtimer := 3 } ∧
    RangeInv (stopwatch_init alarmCase).1 ∧
    RangeInv (stopwatch_keypress { editingHour with settingtimer := 3 } 57).1 ∧
    RangeInv (stopwatch_draw { editingHour with settingtimer := 3 } 1).1 :=
  ⟨by decide, C7_range_invariant alarmCase { editingHour with settingtimer := 3 } 57 1 (by decide)⟩

/-- A digit key passes the digit test of `stopwatch_keypress` and yields its
digit. -/
theorem digitKey_bits (d : Nat) (hd : d ≤ 9) :
    digitKey d ≠ 61 ∧ digitKey d &&& 0x30 = 0x30 ∧ digitKey d &&& 0x0F = d := by
  unfold digitKey
  interval_cases d <;> decide

/-- In digit-entry mode a digit key runs the cursor `switch` on its digit. -/
theorem keypress_digit (s : StopwatchState) (d : Nat) (hd : d ≤ 9)
    (hmode : 1 ≤ s.settingtimer) :
    stopwatch_keypress s (digitKey d) = (enterDigit s d, 1) := by
  obtain ⟨h1, h2, h3⟩ := digitKey_bits d hd
  unfold stopwatch_keypress
  rw [if_neg (by omega), if_neg h1, if_pos h2, h3]

theorem tens_step (a old : Nat) (ha : a ≤ 9) :
    (a * 10 + old % 10) % 256 = a * 10 + old % 10 := by omega

theorem ones_step (a r b : Nat) (ha : a ≤ 9) (hr : r ≤ 9) (hb : b ≤ 9) :
    (a * 10 + r - (a * 10 + r) % 10 + b) % 256 = 10 * a + b := by omega

/-- Two digits `a`, `b` typed in a row at a field that is clamped to 59: the
field ends as `10 * a + b` when that is at most 59. -/
theorem clamped_pair (a b old : Nat) (hab : 10 * a + b ≤ 59) (hb : b ≤ 9) :
    (if 59 <
          ((if 59 < (a * 10 + old % 10) % 256 then 59 else (a * 10 + old % 10) % 256) -
                (if 59 < (a * 10 + old % 10) % 256 then 59 else (a * 10 + old % 10) % 256) % 10 +
              b) % 256 then 59
      else
        ((if 59 < (a * 10 + old % 10) % 256 then 59 else (a * 10 + old % 10) % 256) -
              (if 59 < (a * 10 + old % 10) % 256 then 59 else (a * 10 + old % 10) % 256) % 10 +
            b) % 256) = 10 * a + b := by
  have ha : a ≤ 5 := by omega
  have hr : old % 10 ≤ 9 := by omega
  have h2 : ¬ 59 < a * 10 + old % 10 := by omega
  have h3 : ¬ 59 < 10 * a + b := by omega
  simp only [tens_step a old (by omega), if_neg h2,
    ones_step a (old % 10) b (by omega) hr hb, if_neg h3]

/-- The two hour digits: what `enterDigit` leaves from cursor 1. -/
theorem enterDigit_hour (s : StopwatchState) (a b : Nat) (ha : a ≤ 9) (hb : b ≤ 9)
    (hk : s.settingtimer = 1) :
    (enterDigit s a).settingtimer = 2 ∧
    (enterDigit (enterDigit s a) b).settingtimer = 3 ∧
    (enterDigit (enterDigit s a) b).hourtimer = 10 * a + b ∧
    (enterDigit (enterDigit s a) b).mintimer = s.mintimer ∧
    (enterDigit (enterDigit s a) b).sectimer = s.sectimer := by
  simp only [enterDigit, hk]
  norm_num
  rw [tens_step a _ ha, ones_step a _ b ha (by omega) hb]

/-- The two minute digits: what `enterDigit` leaves from cursor 3. -/
theorem enterDigit_min (s : StopwatchState) (a b : Nat) (hab : 10 * a + b ≤ 59) (hb : b ≤ 9)
    (hk : s.settingtimer = 3) :
    (enterDigit s a).settingtimer = 4 ∧
    (enterDigit (enterDigit s a) b).settingtimer = 5 ∧
    (enterDigit (enterDigit s a) b).hourtimer = s.hourtimer ∧
    (enterDigit (enterDigit s a) b).mintimer = 10 * a + b ∧
    (enterDigit (enterDigit s a) b).sectimer = s.sectimer := by
  simp only [enterDigit, hk]
  norm_num
  exact clamped_pair a b s.mintimer hab hb

/-- The two second digits: what `enterDigit` leaves from cursor 5. -/
theorem enterDigit_sec (s : StopwatchState) (a b : Nat) (hab : 10 * a + b ≤ 59) (hb : b ≤ 9)
    (hk : s.settingtimer = 5) :
    (enterDigit s a).settingtimer = 6 ∧
    (enterDigit (enterDigit s a) b).settingtimer = 0 ∧
    (enterDigit (enterDigit s a) b).hourtimer = s.hourtimer ∧
    (enterDigit (enterDigit s a) b).mintimer = s.mintimer ∧
    (enterDigit (enterDigit s a) b).sectimer = 10 * a + b := by
  simp only [enterDigit, hk]
  norm_num
  exact clamped_pair a b s.sectimer hab hb

/-- C8: from a paused normal-mode state, whatever the alarm was, the key `=`
followed by six digit keys `h1 h2 m1 m2 s1 s2` (minutes and seconds at most 59)
moves `settingtimer` through 1, 2, 3, 4, 5, 6 and back to 0, every call
returns 1, and the alarm ends as `10*h1+h2`, `10*m1+m2`, `10*s1+s2`. -/
theorem C8_alarm_entry_sequence (s : StopwatchState) (h1 h2 m1 m2 s1 s2 : Nat)
    (hmode : s.settingtimer < 1) (hpaused : s.counting = 0)
    (hh1 : h1 ≤ 9) (hh2 : h2 ≤ 9) (hm1 : m1 ≤ 9) (hm2 : m2 ≤ 9) (hs1 : s1 ≤ 9) (hs2 : s2 ≤ 9)
    (hmin : 10 * m1 + m2 ≤ 59) (hsec : 10 * s1 + s2 ≤ 59) :
    (keypresses s [61, digitKey h1, digitKey h2, digitKey m1, digitKey m2,
        digitKey s1, digitKey s2]).2
      = [(1, 1), (2, 1), (3, 1), (4, 1), (5, 1), (6, 1), (0, 1)] ∧
    (keypresses s [61, digitKey h1, digitKey h2, digitKey m1, digitKey m2,
        digitKey s1, digitKey s2]).1.hourtimer = 10 * h1 + h2 ∧
    (keypresses s [61, digitKey h1, digitKey h2, digitKey m1, digitKey m2,
        digitKey s1, digitKey s2]).1.mintimer = 10 * m1 + m2 ∧
    (keypresses s [61, digitKey h1, digitKey h2, digitKey m1, digitKey m2,
        digitKey s1, digitKey s2]).1.sectimer = 10 * s1 + s2 := by
  have k0 : stopwatch_keypress s 61 = ({ s with settingtimer := 1 }, 1) := by
    unfold stopwatch_keypress lnot
    rw [if_pos hmode]
    simp [hpaused]
  obtain ⟨a1, a2, a3, a4, a5⟩ :=
    enterDigit_hour { s with settingtimer := 1 } h1 h2 hh1 hh2 rfl
  obtain ⟨b1, b2, b3, b4, b5⟩ :=
    enterDigit_min (enterDigit (enterDigit { s with settingtimer := 1 } h1) h2) m1 m2 hmin hm2 a2
  obtain ⟨c1, c2, c3, c4, c5⟩ :=
    enterDigit_sec (enterDigit (enterDigit (enterDigit (enterDigit
      { s with settingtimer := 1 } h1) h2) m1) m2) s1 s2 hsec hs2 b2
  have k1 := keypress_digit { s with settingtimer := 1 } h1 hh1 (le_refl _)
  have k2 := keypress_digit (enterDigit { s with settingtimer := 1 } h1) h2 hh2 (by omega)
  have k3 := keypress_digit (enterDigit (enterDigit { s with settingtimer := 1 } h1) h2) m1 hm1
    (by omega)
  have k4 := keypress_digit (enterDigit (enterDigit (enterDigit
    { s with settingtimer := 1 } h1) h2) m1) m2 hm2 (by omega)
  have k5 := keypress_digit (enterDigit (enterDigit (enterDigit (enterDigit
    { s with settingtimer := 1 } h1) h2) m1) m2) s1 hs1 (by omega)
  have k6 := keypress_digit (enterDigit (enterDigit (enterDigit (enterDigit (enterDigit
    { s with settingtimer := 1 } h1) h2) m1) m2) s1) s2 hs2 (by omega)
  simp only [keypresses, k0, k1, k2, k3, k4, k5, k6, a1, a2, b1, b2, c1, c2]
  refine ⟨trivial, ?_, ?_, ?_⟩
  · rw [c3, b3, a3]
  · rw [c4, b4]
  · rw [c5]

/-- Witness for C8: setting the alarm to 12:34:56 after `stopwatch_init`. -/
theorem C8_alarm_entry_sequence_witness :
    (keypresses (stopwatch_init powerUp).1 [61, 49, 50, 51, 52, 53, 54]).2
      = [(1, 1), (2, 1), (3, 1), (4, 1), (5, 1), (6, 1), (0, 1)] ∧
    (keypresses (stopwatch_init powerUp).1 [61, 49, 50, 51, 52, 53, 54]).1.hourtimer = 12 ∧
    (keypresses (stopwatch_init powerUp).1 [61, 49, 50, 51, 52, 53, 54]).1.mintimer = 34 ∧
    (keypresses (stopwatch_init powerUp).1 [61, 49, 50, 51, 52, 53, 54]).1.sectimer = 56 :=
  C8_alarm_entry_sequence (stopwatch_init powerUp).1 1 2 3 4 5 6 (by decide) (by decide)
    (by decide) (by decide) (by decide) (by decide) (by decide) (by decide) (by decide)
    (by decide)

/-! ## Packet radio: the claims -/

/-- C9 fails on the code for `packet_tx` and `packet_rxoff`: `packet_rxon`
always leaves the mode Receiving, but `packet_tx` on a radio armed for
reception leaves `receiving` set, so the mode `packet_isr` dispatches on is
still Receiving, and `packet_rxoff` during a transmission leaves
`transmitting` set, so the mode is Transmitting rather than Idle. -/
theorem C9_mode_after_tx_and_rxoff :
    (∀ s : PacketState, mode (packet_rxon s).1 = Mode.Receiving) ∧
    mode rxArmed = Mode.Receiving ∧
    mode (packet_tx rxArmed [1, 2, 3] 3).1 = Mode.Receiving ∧
    mode txStarted = Mode.Transmitting ∧
    mode (packet_rxoff txStarted).1 = Mode.Transmitting := by
  refine ⟨fun s => ?_, by decide, by decide, by decide, by decide⟩
  simp [mode, packet_rxon]

/-- C10 fails on the code: from power-up, `packet_rxon` followed by `packet_tx`
leaves both `receiving` and `transmitting` set, and the interrupt that ends
the transmission (source `RFIFG9`) clears neither. -/
theorem C10_both_flags_set :
    (packetPowerUp 60).receiving = 0 ∧ (packetPowerUp 60).transmitting = 0 ∧
    (packetRun (packetPowerUp 60) [PacketCall.rxon, PacketCall.tx [1, 2, 3] 3]).receiving = 1 ∧
    (packetRun (packetPowerUp 60) [PacketCall.rxon, PacketCall.tx [1, 2, 3] 3]).transmitting = 1 ∧
    (packetRun (packetPowerUp 60)
      [PacketCall.rxon, PacketCall.tx [1, 2, 3] 3, PacketCall.isr 20 0 []]).receiving = 1 ∧
    (packetRun (packetPowerUp 60)
      [PacketCall.rxon, PacketCall.tx [1, 2, 3] 3, PacketCall.isr 20 0 []]).transmitting = 1 := by
  decide

theorem and_compl_bit9 (x : Nat) : (x &&& compl16 BIT9) &&& BIT9 = 0 := by
  rw [Nat.land_assoc]
  have h : compl16 BIT9 &&& BIT9 = 0 := by decide
  rw [h]
  exact Nat.and_zero x

/-- C12: in mode Transmitting (`receiving` clear, `transmitting` set),
`packet_isr` on interrupt source RFIFG9 clears bit 9 of `RF1AIE` (and no other
bit), clears `transmitting`, so that the mode becomes Idle, and leaves
`rxbuffer` and `rxlen` unchanged. -/
theorem C12_isr_ends_transmission (s : PacketState) (iv rxbytes : Nat) (fifo : List Nat)
    (hiv : iv &&& compl16 1 = 20) (hrx : s.receiving = 0) (htx : s.transmitting ≠ 0) :
    mode s = Mode.Transmitting ∧
    (packet_isr s iv rxbytes fifo).1.RF1AIE = s.RF1AIE &&& compl16 BIT9 ∧
    (packet_isr s iv rxbytes fifo).1.RF1AIE &&& BIT9 = 0 ∧
    (packet_isr s iv rxbytes fifo).1.transmitting = 0 ∧
    mode (packet_isr s iv rxbytes fifo).1 = Mode.Idle ∧
    (packet_isr s iv rxbytes fifo).1.rxbuffer = s.rxbuffer ∧
    (packet_isr s iv rxbytes fifo).1.rxlen = s.rxlen := by
  unfold packet_isr
  rw [if_pos hiv, if_neg (by simp [hrx]), if_pos htx]
  simp [mode, hrx, htx, and_compl_bit9]

/-- Witness for C12: the interrupt that ends the transmission of `txStarted`. -/
theorem C12_isr_ends_transmission_witness :
    mode txStarted = Mode.Transmitting ∧ txStarted.RF1AIE = 512 ∧
    (packet_isr txStarted 20 0 []).1.RF1AIE &&& BIT9 = 0 ∧
    mode (packet_isr txStarted 20 0 []).1 = Mode.Idle :=
  ⟨(C12_isr_ends_transmission txStarted 20 0 [] (by decide) (by decide) (by decide)).1,
   by decide,
   (C12_isr_ends_transmission txStarted 20 0 [] (by decide) (by decide) (by decide)).2.2.1,
   (C12_isr_ends_transmission txStarted 20 0 [] (by decide) (by decide) (by decide)).2.2.2.2.1⟩

theorem burstRead_length (buf fifo : List Nat) (len : Nat) :
    (burstRead buf fifo len).length = len + (buf.length - len) := by
  simp only [burstRead, List.length_append, List.length_map, List.length_range,
    List.length_drop]

/-- C20 fails on the code: `packet_isr` hands the byte-count register's value
`L` to `radio_readburstreg` unchecked, so whenever `L` exceeds the capacity
`PACKETLEN + 2` of `rxbuffer` the burst read is asked to store `L` bytes and
runs past the end of the buffer. -/
theorem C20_burst_read_exceeds_buffer (PACKETLEN L : Nat) (hL : L ≤ 255)
    (hbig : PACKETLEN + 2 < L) :
    (packet_rxon (packetPowerUp PACKETLEN)).1.receiving ≠ 0 ∧
    (packet_rxon (packetPowerUp PACKETLEN)).1.rxbuffer.length = PACKETLEN + 2 ∧
    RadioOp.radio_readburstreg_RXFIFORD L
      ∈ (packet_isr (packet_rxon (packetPowerUp PACKETLEN)).1 20 L []).2 ∧
    (packet_isr (packet_rxon (packetPowerUp PACKETLEN)).1 20 L []).1.rxbuffer.length = L ∧
    PACKETLEN + 2 <
      (packet_isr (packet_rxon (packetPowerUp PACKETLEN)).1 20 L []).1.rxbuffer.length := by
  have hiv : 20 &&& compl16 1 = 20 := by decide
  have hrx : (packet_rxon (packetPowerUp PACKETLEN)).1.receiving ≠ 0 := by
    simp [packet_rxon]
  have hlen : (packet_rxon (packetPowerUp PACKETLEN)).1.rxbuffer.length = PACKETLEN + 2 := by
    simp [packet_rxon, packetPowerUp]
  have hm : L % 256 = L := Nat.mod_eq_of_lt (by omega)
  have hafter :
      (packet_isr (packet_rxon (packetPowerUp PACKETLEN)).1 20 L []).1.rxbuffer.length = L := by
    unfold packet_isr
    rw [if_pos hiv, if_pos hrx, hm]
    dsimp only
    rw [burstRead_length, hlen]
    omega
  refine ⟨hrx, hlen, ?_, hafter, by rw [hafter]; exact hbig⟩
  unfold packet_isr
  rw [if_pos hiv, if_pos hrx, hm]
  exact List.mem_cons_of_mem _ (List.mem_cons_self _ _)

/-- Witness for C20: sixty-byte packets (a 62-byte `rxbuffer`) and a full
64-byte FIFO. -/
theorem C20_burst_read_exceeds_buffer_witness :
    rxArmed.rxbuffer.length = 62 ∧
    RadioOp.radio_readburstreg_RXFIFORD 64 ∈ (packet_isr rxArmed 20 64 []).2 ∧
    (packet_isr rxArmed 20 64 []).1.rxbuffer.length = 64 :=
  ⟨(C20_burst_read_exceeds_buffer 60 64 (by decide) (by decide)).2.1,
   (C20_burst_read_exceeds_buffer 60 64 (by decide) (by decide)).2.2.1,
   (C20_burst_read_exceeds_buffer 60 64 (by decide) (by decide)).2.2.2.1⟩

/-! ## Stopwatch: further claims -/

/-- C13, as amended: for every prior state `stopwatch_init` zeroes `count`,
`hour`, `min`, `sec`, `counting` and `enabletimer` and sets the alarm to
0:03:00; it writes neither `showtime` nor `settingtimer`, which keep their
prior values; and `hourhex`, `minhex`, `sechex` are zero when the prior state
is in normal mode (`settingtimer < 1`). -/
theorem C13_init_resets_count_and_alarm (s : StopwatchState) :
    (stopwatch_init s).1.count = 0 ∧ (stopwatch_init s).1.hour = 0 ∧
    (stopwatch_init s).1.min = 0 ∧ (stopwatch_init s).1.sec = 0 ∧
    (stopwatch_init s).1.counting = 0 ∧ (stopwatch_init s).1.enabletimer = 0 ∧
    (stopwatch_init s).1.hourtimer = 0 ∧ (stopwatch_init s).1.mintimer = 3 ∧
    (stopwatch_init s).1.sectimer = 0 ∧
    (stopwatch_init s).1.showtime = s.showtime ∧
    (stopwatch_init s).1.settingtimer = s.settingtimer ∧
    (s.settingtimer < 1 → (stopwatch_init s).1.hourhex = 0 ∧
      (stopwatch_init s).1.minhex = 0 ∧ (stopwatch_init s).1.sechex = 0) := by
  by_cases h : s.settingtimer < 1
  · have h2 : ¬ s.settingtimer > 0 := by omega
    simp [stopwatch_init, stopwatch_draw, drawBody, tick, h, h2]
    split_ifs <;> simp
  · have h2 : s.settingtimer > 0 := by omega
    simp [stopwatch_init, stopwatch_draw, drawBody, timer_set_draw, h, h2]

/-- Witness for C13: `stopwatch_init` on a counting stopwatch in normal mode. -/
theorem C13_init_resets_count_and_alarm_witness :
    alarmCase.settingtimer < 1 ∧ (stopwatch_init alarmCase).1.count = 0 ∧
    (stopwatch_init alarmCase).1.settingtimer = alarmCase.settingtimer ∧
    (stopwatch_init alarmCase).1.hourhex = 0 ∧ (stopwatch_init alarmCase).1.minhex = 0 ∧
    (stopwatch_init alarmCase).1.sechex = 0 :=
  ⟨by decide, (C13_init_resets_count_and_alarm alarmCase).1,
   (C13_init_resets_count_and_alarm alarmCase).2.2.2.2.2.2.2.2.2.2.1,
   (C13_init_resets_count_and_alarm alarmCase).2.2.2.2.2.2.2.2.2.2.2 (by decide)⟩

/-- C13, as stated, fails: on a stopwatch left in digit-entry mode with
`showtime` set, `stopwatch_init` leaves `settingtimer` at 3 and `showtime` at 1,
and its forced draw reloads `minhex` with the BCD of the alarm minutes. -/
theorem C13_counterexample :
    (stopwatch_init leftEditing).1.settingtimer = 3 ∧
    (stopwatch_init leftEditing).1.showtime = 1 ∧
    (stopwatch_init leftEditing).1.minhex = 3 := by
  decide

/-- The cascade does not read `showtime`. -/
theorem tick_showtime (s : StopwatchState) (v : Int) :
    tick { s with showtime := v } = { tick s with showtime := v } := by
  unfold tick
  dsimp only
  split_ifs <;> rfl

/-- C14: in normal mode the key `/` followed by `stopwatch_draw(f)` leaves
`count`, `hour`, `min`, `sec` and `counting` as `stopwatch_draw(f)` alone
does. -/
theorem C14_peek_keeps_count (s : StopwatchState) (forced : Int)
    (hmode : s.settingtimer < 1) :
    (stopwatch_draw (stopwatch_keypress s 47).1 forced).1.count
      = (stopwatch_draw s forced).1.count ∧
    (stopwatch_draw (stopwatch_keypress s 47).1 forced).1.hour
      = (stopwatch_draw s forced).1.hour ∧
    (stopwatch_draw (stopwatch_keypress s 47).1 forced).1.min
      = (stopwatch_draw s forced).1.min ∧
    (stopwatch_draw (stopwatch_keypress s 47).1 forced).1.sec
      = (stopwatch_draw s forced).1.sec ∧
    (stopwatch_draw (stopwatch_keypress s 47).1 forced).1.counting
      = (stopwatch_draw s forced).1.counting := by
  have hk : (stopwatch_keypress s 47).1 = { s with showtime := 1 } := by
    unfold stopwatch_keypress
    rw [if_pos hmode]
    simp
  rw [hk]
  by_cases hrun : forced = 0 ∧ s.counting = 0
  · obtain ⟨hf, hc⟩ := hrun
    subst hf
    rw [draw_state_of_idle s hmode hc, draw_state_of_idle { s with showtime := 1 } hmode hc]
    exact ⟨rfl, rfl, rfl, rfl, rfl⟩
  · rw [draw_state_of_run s forced hmode hrun,
      draw_state_of_run { s with showtime := 1 } forced hmode hrun, tick_showtime]
    exact ⟨rfl, rfl, rfl, rfl, rfl⟩

/-- Witness for C14: peeking at the time during the tick that completes a
second. -/
theorem C14_peek_keeps_count_witness :
    (stopwatch_draw (stopwatch_keypress alarmCase 47).1 0).1.count
      = (stopwatch_draw alarmCase 0).1.count ∧
    (stopwatch_draw (stopwatch_keypress alarmCase 47).1 0).1.sec
      = (stopwatch_draw alarmCase 0).1.sec :=
  ⟨(C14_peek_keeps_count alarmCase 0 (by decide)).1,
   (C14_peek_keeps_count alarmCase 0 (by decide)).2.2.2.1⟩

/-- The display operations of an unforced call in digit-entry mode: the editor
operations followed by the cursor blanking for the toggled `flicker`. -/
theorem displayOps_draw_of_editing (t : StopwatchState) (hmode : 1 ≤ t.settingtimer) :
    displayOps (stopwatch_draw t 0).2
      = editorOps t ++ cursorBlank t.settingtimer (Int.xor t.flicker 1) ∧
    (stopwatch_draw t 0).1 = (timer_set_draw t).1 := by
  have hm : ¬ t.settingtimer < 1 := by omega
  have hp : t.settingtimer > 0 := by omega
  have hc : displayOps (cursorBlank t.settingtimer (Int.xor t.flicker 1))
      = cursorBlank t.settingtimer (Int.xor t.flicker 1) := by
    unfold cursorBlank displayOps
    split_ifs <;> rfl
  unfold displayOps at hc
  unfold stopwatch_draw drawBody
  rw [if_neg hm]
  dsimp only
  rw [if_pos hp]
  refine ⟨?_, rfl⟩
  simp [displayOps, isDisplayOp, timer_set_draw, editorOps, hc]

/-- The cursor blanking at a cursor position 1..6. -/
theorem cursorBlank_of_cursor (k f : Int) (h1 : 1 ≤ k) (h6 : k ≤ 6) :
    cursorBlank k f = if f = 0 then [] else [Effect.lcd_cleardigit (cursorDigit k)] := by
  have hk : k = 1 ∨ k = 2 ∨ k = 3 ∨ k = 4 ∨ k = 5 ∨ k = 6 := by omega
  unfold cursorBlank cursorDigit
  rcases hk with h | h | h | h | h | h <;> subst h <;> split_ifs <;> first | rfl | omega

/-- C15, as amended: on a paused stopwatch in normal mode two consecutive calls
of `stopwatch_draw(0)` emit the same sequence of display operations (none at
all) and leave the state unchanged. In digit-entry mode (`settingtimer` in
1..6, `flicker` 0 or 1) each of two consecutive calls emits the `setplus`, the
`setcolon` and the six `lcd_digit` operations of the alarm, and exactly one of
the two, the first if `flicker` was 0 and the second if it was 1, follows them
with the `lcd_cleardigit` of the digit under the cursor. -/
theorem C15_idle_render_idempotent (s : StopwatchState) :
    (s.settingtimer < 1 → s.counting = 0 →
      (stopwatch_draw s 0).1 = s ∧ displayOps (stopwatch_draw s 0).2 = [] ∧
      displayOps (stopwatch_draw (stopwatch_draw s 0).1 0).2
        = displayOps (stopwatch_draw s 0).2) ∧
    (1 ≤ s.settingtimer → s.settingtimer ≤ 6 → s.flicker = 0 →
      displayOps (stopwatch_draw s 0).2
        = editorOps s ++ [Effect.lcd_cleardigit (cursorDigit s.settingtimer)] ∧
      displayOps (stopwatch_draw (stopwatch_draw s 0).1 0).2 = editorOps s) ∧
    (1 ≤ s.settingtimer → s.settingtimer ≤ 6 → s.flicker = 1 →
      displayOps (stopwatch_draw s 0).2 = editorOps s ∧
      displayOps (stopwatch_draw (stopwatch_draw s 0).1 0).2
        = editorOps s ++ [Effect.lcd_cleardigit (cursorDigit s.settingtimer)]) := by
  have x01 : Int.xor 0 1 = 1 := rfl
  have x11 : Int.xor 1 1 = 0 := rfl
  have hed : editorOps (timer_set_draw s).1 = editorOps s := rfl
  have hset : (timer_set_draw s).1.settingtimer = s.settingtimer := rfl
  have hfl : (timer_set_draw s).1.flicker = Int.xor s.flicker 1 := rfl
  refine ⟨?_, ?_, ?_⟩
  · intro hmode hc
    have h := draw_state_of_idle s hmode hc
    rw [h]
    dsimp only
    rw [h]
    exact ⟨rfl, rfl, rfl⟩
  · intro h1 h6 hf
    obtain ⟨hops, hstate⟩ := displayOps_draw_of_editing s h1
    obtain ⟨hops2, -⟩ := displayOps_draw_of_editing (timer_set_draw s).1 (by rw [hset]; exact h1)
    rw [hstate, hops, hops2, hed, hset, hfl, hf, x01, x11,
      cursorBlank_of_cursor _ _ h1 h6, cursorBlank_of_cursor _ _ h1 h6]
    simp
  · intro h1 h6 hf
    obtain ⟨hops, hstate⟩ := displayOps_draw_of_editing s h1
    obtain ⟨hops2, -⟩ := displayOps_draw_of_editing (timer_set_draw s).1 (by rw [hset]; exact h1)
    rw [hstate, hops, hops2, hed, hset, hfl, hf, x11, x01,
      cursorBlank_of_cursor _ _ h1 h6, cursorBlank_of_cursor _ _ h1 h6]
    simp

/-- Witness for C15: the paused stopwatch of `pausedAtThree` and the alarm
editor of `editingHour`, whose first call blanks digit 7 and whose second call
does not. -/
theorem C15_idle_render_idempotent_witness :
    displayOps (stopwatch_draw (stopwatch_draw pausedAtThree 0).1 0).2
      = displayOps (stopwatch_draw pausedAtThree 0).2 ∧
    displayOps (stopwatch_draw editingHour 0).2
      = editorOps editingHour ++ [Effect.lcd_cleardigit 7] ∧
    displayOps (stopwatch_draw (stopwatch_draw editingHour 0).1 0).2
      = editorOps editingHour :=
  ⟨((C15_idle_render_idempotent pausedAtThree).1 (by decide) (by decide)).2.2,
   ((C15_idle_render_idempotent editingHour).2.1 (by decide) (by decide) (by decide)).1,
   ((C15_idle_render_idempotent editingHour).2.1 (by decide) (by decide) (by decide)).2⟩

/-- C15, as stated, fails: on a counting stopwatch the second call draws the
next quarter second, and in digit-entry mode the second call no longer blanks
the digit under the cursor. -/
theorem C15_counterexample :
    displayOps (stopwatch_draw (stopwatch_draw resetCounting 0).1 0).2
      ≠ displayOps (stopwatch_draw resetCounting 0).2 ∧
    displayOps (stopwatch_draw (stopwatch_draw editingHour 0).1 0).2
      ≠ displayOps (stopwatch_draw editingHour 0).2 := by
  decide

/-- C16 fails on the code: after `stopwatch_init`, the key `+`, four quarter
ticks, the key `+` and the key `=` twice (into digit-entry mode and out again)
the stopwatch is in normal mode with `sec = 1`, but the exit from digit entry
has zeroed the caches, so `sechex = 0` while `int2bcd(sec) = 1`. -/
theorem C16_caches_zeroed_after_entry :
    (stopwatchRun powerUp pauseAndEdit).settingtimer < 1 ∧
    (stopwatchRun powerUp pauseAndEdit).sec = 1 ∧
    int2bcd (stopwatchRun powerUp pauseAndEdit).sec = 1 ∧
    (stopwatchRun powerUp pauseAndEdit).sechex = 0 := by
  decide

theorem draw_counting_settingtimer (s : StopwatchState) (forced : Int) :
    (stopwatch_draw s forced).1.counting = s.counting ∧
    (stopwatch_draw s forced).1.settingtimer = s.settingtimer := by
  have hf := tick_frame s
  unfold stopwatch_draw
  simp only [drawBody_state]
  split_ifs <;> first | exact ⟨rfl, rfl⟩ | exact ⟨hf.1, hf.2.2.1⟩

theorem enterDigit_counting (s : StopwatchState) (d : Nat) :
    (enterDigit s d).counting = s.counting := by
  unfold enterDigit
  split_ifs <;> rfl

theorem keypress_counting_of_editing (s : StopwatchState) (ch : Nat)
    (hmode : 1 ≤ s.settingtimer) : (stopwatch_keypress s ch).1.counting = s.counting := by
  unfold stopwatch_keypress
  rw [if_neg (by omega)]
  split_ifs
  · exact enterDigit_counting _ _
  · exact enterDigit_counting _ _
  · rfl

theorem keypress_exclusive (s : StopwatchState) (ch : Nat) (h : ModeExclusive s) :
    ModeExclusive (stopwatch_keypress s ch).1 := by
  unfold ModeExclusive at *
  by_cases hmode : s.settingtimer < 1
  · unfold stopwatch_keypress lnot
    rw [if_pos hmode]
    by_cases hc : s.counting = 0 <;> split_ifs <;> simp_all
  · have hc : s.counting = 0 := by
      by_contra hne
      exact h ⟨hne, by omega⟩
    rw [keypress_counting_of_editing s ch (by omega), hc]
    simp

theorem step_exclusive (s : StopwatchState) (c : StopwatchCall) (h : ModeExclusive s) :
    ModeExclusive (stopwatchStep s c) := by
  cases c with
  | init =>
    unfold ModeExclusive stopwatchStep stopwatch_init
    rw [(draw_counting_settingtimer _ 1).1]
    simp
  | key ch => exact keypress_exclusive s ch h
  | draw forced =>
    unfold ModeExclusive stopwatchStep
    rw [(draw_counting_settingtimer s forced).1, (draw_counting_settingtimer s forced).2]
    exact h

theorem run_exclusive (calls : List StopwatchCall) :
    ∀ s : StopwatchState, ModeExclusive s → ModeExclusive (stopwatchRun s calls) := by
  induction calls with
  | nil => intro s h; exact h
  | cons c cs ih =>
    intro s h
    exact ih (stopwatchStep s c) (step_exclusive s c h)

/-- C17: from any state with counting false, after every finite sequence of
`stopwatch_init`, `stopwatch_keypress` and `stopwatch_draw` calls it is not the
case that counting is true and `settingtimer >= 1`; in such a state the key `=`
pressed while counting leaves `settingtimer` alone, and no key pressed in
digit-entry mode changes `counting`. -/
theorem C17_counting_excludes_editing (s : StopwatchState) (calls : List StopwatchCall)
    (ch : Nat) (hpaused : s.counting = 0) :
    ¬ ((stopwatchRun s calls).counting ≠ 0 ∧ 1 ≤ (stopwatchRun s calls).settingtimer) ∧
    ((stopwatchRun s calls).settingtimer < 1 → (stopwatchRun s calls).counting ≠ 0 →
      (stopwatch_keypress (stopwatchRun s calls) 61).1.settingtimer
        = (stopwatchRun s calls).settingtimer) ∧
    (1 ≤ (stopwatchRun s calls).settingtimer →
      (stopwatch_keypress (stopwatchRun s calls) ch).1.counting
        = (stopwatchRun s calls).counting) := by
  refine ⟨run_exclusive calls s (fun h => h.1 hpaused), ?_, ?_⟩
  · intro hmode hc
    unfold stopwatch_keypress lnot
    rw [if_pos hmode]
    simp [hc]
  · intro hmode
    exact keypress_counting_of_editing _ ch hmode

/-- Witness for C17: the run `pauseAndEdit` from power-up, followed by a
digit key. -/
theorem C17_counting_excludes_editing_witness :
    powerUp.counting = 0 ∧
    ¬ ((stopwatchRun powerUp pauseAndEdit).counting ≠ 0 ∧
        1 ≤ (stopwatchRun powerUp pauseAndEdit).settingtimer) :=
  ⟨by decide, (C17_counting_excludes_editing powerUp pauseAndEdit 49 (by decide)).1⟩

/-- C18: from the reset state with counting true, after `n` calls of
`stopwatch_draw` (any forced flags, any `showtime`), with
`X = (n + 1) / 4 < 3600 * 65536`: `count = n mod 65536`, `sec = X mod 60`,
`min = (X / 60) mod 60` and `hour = X / 3600`. -/
theorem C18_cadence_across_wraparound (s : StopwatchState) (fs : List Int)
    (hmode : s.settingtimer < 1) (hcounting : s.counting ≠ 0)
    (hcount : s.count = 0) (hhour : s.hour = 0) (hmin : s.min = 0) (hsec : s.sec = 0)
    (hX : (fs.length + 1) / 4 < 3600 * 65536) :
    (draws s fs).count = fs.length % 65536 ∧
    (draws s fs).sec = (fs.length + 1) / 4 % 60 ∧
    (draws s fs).min = (fs.length + 1) / 4 / 60 % 60 ∧
    (draws s fs).hour = (fs.length + 1) / 4 / 3600 := by
  have h0 : CountInv 0 s := ⟨hmode, hcounting, by simp [hcount], by simp [hsec],
    by simp [hmin], by simp [hhour]⟩
  have h := draws_countInv fs 0 s h0
  obtain ⟨-, -, h3, h4, h5, h6⟩ := h
  rw [Nat.zero_add] at h3 h4 h5 h6
  rw [Nat.div_div_eq_div_mul _ 60 60] at h6
  refine ⟨h3, h4, h5, ?_⟩
  rw [h6]
  clear h3 h4 h5 h6 h0
  generalize (fs.length + 1) / 4 = X at hX
  omega

/-- Witness for C18: seventy thousand calls, past the wraparound of `count`. -/
theorem C18_cadence_across_wraparound_witness :
    (draws resetCounting (List.replicate 70000 0)).count
      = (List.replicate 70000 (0 : Int)).length % 65536 ∧
    (draws resetCounting (List.replicate 70000 0)).sec
      = ((List.replicate 70000 (0 : Int)).length + 1) / 4 % 60 ∧
    (draws resetCounting (List.replicate 70000 0)).min
      = ((List.replicate 70000 (0 : Int)).length + 1) / 4 / 60 % 60 ∧
    (draws resetCounting (List.replicate 70000 0)).hour
      = ((List.replicate 70000 (0 : Int)).length + 1) / 4 / 3600 :=
  C18_cadence_across_wraparound resetCounting (List.replicate 70000 0)
    (by decide) (by decide) rfl rfl rfl rfl (by rw [List.length_replicate]; decide)

theorem tick_hexMirror (s : StopwatchState) (h : HexMirror s) : HexMirror (tick s) := by
  obtain ⟨h1, h2⟩ := h
  unfold tick HexMirror
  dsimp only
  split_ifs <;> first | exact ⟨h1, h2⟩ | exact ⟨rfl, h2⟩ | exact ⟨rfl, rfl⟩ | exact ⟨h1, rfl⟩

theorem bcd_digits (v : Nat) (hv : v ≤ 99) :
    (int2bcd v % 256) >>> 4 = v / 10 ∧ (int2bcd v % 256) &&& 0xF = v % 10 := by
  have h2 : ∀ x : Nat, x &&& 0xF = x % 16 := fun x => Nat.and_pow_two_sub_one_eq_mod x 4
  rw [Nat.shiftRight_eq_div_pow, h2]
  unfold int2bcd
  constructor <;> omega

theorem display_append (d : Nat → Option Nat) (xs ys : List Effect) :
    display d (xs ++ ys) = display (display d xs) ys := by
  unfold display
  exact List.foldl_append _ _ _ _

theorem display_alarm (d : Nat → Option Nat) (s : StopwatchState) :
    display d (alarm s) = d := by
  unfold alarm
  split_ifs <;> rfl

/-- The display after the digits of the `mmssSS` format have been drawn in an
unforced call. -/
theorem display_drawDigits (d : Nat → Option Nat) (t : StopwatchState) (subhex : Nat)
    (hhour : t.hour = 0) :
    display d (drawDigits t 0 subhex) 1 = some (subhex >>> 4) ∧
    display d (drawDigits t 0 subhex) 0 = some (subhex &&& 0xF) ∧
    display d (drawDigits t 0 subhex) 4
      = (if subhex = 0 ∨ t.count = 1 then some (t.sechex >>> 4) else d 4) ∧
    display d (drawDigits t 0 subhex) 3
      = (if subhex = 0 ∨ t.count = 1 then some (t.sechex &&& 0xF) else d 3) ∧
    display d (drawDigits t 0 subhex) 7
      = (if (subhex = 0 ∨ t.count = 1) ∧ t.sec = 0 then some (t.minhex >>> 4) else d 7) ∧
    display d (drawDigits t 0 subhex) 6
      = (if (subhex = 0 ∨ t.count = 1) ∧ t.sec = 0 then some (t.minhex &&& 0xF) else d 6) := by
  unfold drawDigits
  rw [if_neg (by simp [hhour])]
  by_cases h1 : subhex = 0 ∨ t.count = 1 <;> by_cases h2 : t.sec = 0 <;>
    simp [h1, h2, display, applyEffect]

theorem display_draw_of_run (s : StopwatchState) (d : Nat → Option Nat)
    (hmode : s.settingtimer < 1) (hc : s.counting ≠ 0) (hshow : s.showtime = 0) :
    display d (stopwatch_draw s 0).2
      = display d (drawDigits (tick s) 0 (subs.getD ((tick s).count &&& 3) 0)) := by
  have hf := tick_frame s
  have hset : ¬ (tick s).settingtimer > 0 := by rw [hf.2.2.1]; omega
  have hsh : ¬ (tick s).showtime ≠ 0 := by rw [hf.2.1, hshow]; simp
  have hal := display_alarm d (tick s)
  unfold stopwatch_draw
  rw [if_pos hmode, if_neg (fun h => hc h.2)]
  dsimp only
  rw [if_neg hsh]
  unfold drawBody
  dsimp only
  rw [if_neg hset]
  dsimp only
  have hcons : ∀ xs : List Effect,
      display d (Effect.app_cleartimer :: xs) = display d xs := fun xs => rfl
  have hhead : display d ((if (0 : Int) ≠ 0 then [Effect.lcd_zero] else []) ++
      [Effect.setplus (tick s).enabletimer, Effect.setcolon ((tick s).count >>> 1 &&& 1)])
      = d := by
    simp [display, applyEffect]
  rw [display_append, hcons, hal, display_append, hhead]

theorem subs_phase (k : Nat) :
    (k % 4 = 0 ∧ subs.getD (k &&& 3) 0 = 0) ∨ (k % 4 = 1 ∧ subs.getD (k &&& 3) 0 = 0x25) ∨
    (k % 4 = 2 ∧ subs.getD (k &&& 3) 0 = 0x50) ∨ (k % 4 = 3 ∧ subs.getD (k &&& 3) 0 = 0x75) := by
  rw [and_three]
  have h : k % 4 = 0 ∨ k % 4 = 1 ∨ k % 4 = 2 ∨ k % 4 = 3 := by omega
  rcases h with h | h | h | h
  · exact Or.inl ⟨h, by rw [h]; rfl⟩
  · exact Or.inr (Or.inl ⟨h, by rw [h]; rfl⟩)
  · exact Or.inr (Or.inr (Or.inl ⟨h, by rw [h]; rfl⟩))
  · exact Or.inr (Or.inr (Or.inr ⟨h, by rw [h]; rfl⟩))

theorem draw_showsElapsed (n : Nat) (s : StopwatchState) (d : Nat → Option Nat)
    (hn : n + 1 ≤ 14398) (hinv : CountInv n s) (hshow : s.showtime = 0)
    (hhex : HexMirror s) (hd : ShowsElapsed n d) :
    ShowsElapsed (n + 1) (display d (stopwatch_draw s 0).2) := by
  have hinv2 := tick_countInv n s hinv
  obtain ⟨hmode, hc, -, -, -, -⟩ := hinv
  obtain ⟨-, -, hcount, hsec, hmin, hhour⟩ := hinv2
  obtain ⟨hsx, hmx⟩ := tick_hexMirror s hhex
  have hcount2 : (tick s).count = n + 1 := by rw [hcount]; omega
  have hhour2 : (tick s).hour = 0 := by rw [hhour]; omega
  obtain ⟨e1, e0, e4, e3, e7, e6⟩ :=
    display_drawDigits d (tick s) (subs.getD ((tick s).count &&& 3) 0) hhour2
  obtain ⟨d7, d6, d4, d3, d1, d0⟩ := hd
  have bs := bcd_digits (tick s).sec (by rw [hsec]; omega)
  have bm := bcd_digits (tick s).min (by rw [hmin]; omega)
  rw [display_draw_of_run s d hmode hc hshow]
  unfold ShowsElapsed
  rw [e1, e0, e4, e3, e7, e6, hsx, hmx, bs.1, bs.2, bm.1, bm.2, d7, d6, d4, d3, hcount2,
    hsec, hmin]
  clear e1 e0 e4 e3 e7 e6 d7 d6 d4 d3 d1 d0 bs bm hsx hmx hcount hsec hmin hhour hcount2 hhour2
  clear hhex hshow hmode hc
  have hY : (n + 1) / 4 ≤ 3599 := by omega
  rcases subs_phase (n + 1) with ⟨hp, hs⟩ | ⟨hp, hs⟩ | ⟨hp, hs⟩ | ⟨hp, hs⟩
  · have hA : (n + 1 + 1) / 4 = (n + 1) / 4 := by omega
    have hB : n / 4 = (n + 1) / 4 - 1 := by omega
    have hY1 : 1 ≤ (n + 1) / 4 := by omega
    rw [hs, hp, hA, hB]
    generalize (n + 1) / 4 = Y at hY hY1 ⊢
    refine ⟨?_, ?_, ?_, ?_, rfl, rfl⟩ <;> split_ifs <;>
      simp only [Option.some.injEq] <;> omega
  · have hA : (n + 1 + 1) / 4 = (n + 1) / 4 := by omega
    have hB : n / 4 = (n + 1) / 4 := by omega
    rw [hs, hp, hA, hB]
    generalize (n + 1) / 4 = Y at hY ⊢
    refine ⟨?_, ?_, ?_, ?_, rfl, rfl⟩ <;> split_ifs <;>
      simp only [Option.some.injEq] <;> omega
  · have hA : (n + 1 + 1) / 4 = (n + 1) / 4 := by omega
    have hB : n / 4 = (n + 1) / 4 := by omega
    rw [hs, hp, hA, hB]
    generalize (n + 1) / 4 = Y at hY ⊢
    refine ⟨?_, ?_, ?_, ?_, rfl, rfl⟩ <;> split_ifs <;>
      simp only [Option.some.injEq] <;> omega
  · have hB : n / 4 = (n + 1) / 4 := by omega
    have hcond : ¬ ((117 : Nat) = 0 ∨ n + 1 = 1) := by omega
    rw [hs, hp, hB]
    refine ⟨?_, ?_, ?_, ?_, rfl, rfl⟩ <;> simp only [hcond, false_and, if_false]

theorem drawsDisplay_showsElapsed (m : Nat) :
    ∀ (n : Nat) (s : StopwatchState) (d : Nat → Option Nat), n + m ≤ 14398 →
      CountInv n s → s.showtime = 0 → HexMirror s → ShowsElapsed n d →
      ShowsElapsed (n + m) (drawsDisplay s d (List.replicate m 0)).2 := by
  induction m with
  | zero => intro n s d _ _ _ _ hd; exact hd
  | succ m ih =>
    intro n s d hn hinv hshow hhex hd
    have hstep : (stopwatch_draw s 0).1 = tick s :=
      draw_state_of_run s 0 hinv.1 (fun hh => hinv.2.1 hh.2)
    have h1 := draw_showsElapsed n s d (by omega) hinv hshow hhex hd
    have h2 := ih (n + 1) (tick s) (display d (stopwatch_draw s 0).2) (by omega)
      (tick_countInv n s hinv) (by rw [(tick_frame s).2.1]; exact hshow)
      (tick_hexMirror s hhex) h1
    simp only [List.replicate_succ, drawsDisplay, hstep]
    have hlen : n + (m + 1) = n + 1 + m := by omega
    rw [hlen]; exact h2

/-- C19: after `stopwatch_init` from power-up, the key `+` and `n` calls of
`stopwatch_draw(0)` with `n <= 14398`, digits 7 and 6 show the two decimal
digits of `n / 240`, digits 4 and 3 those of `(n / 4) mod 60` and digits 1 and
0 those of `25 * (n mod 4)`, whatever the display showed before. -/
theorem C19_display_shows_elapsed (d0 : Nat → Option Nat) (n : Nat) (hn : n ≤ 14398) :
    (startedDisplay d0 n).2 7 = some (n / 240 / 10) ∧
    (startedDisplay d0 n).2 6 = some (n / 240 % 10) ∧
    (startedDisplay d0 n).2 4 = some (n / 4 % 60 / 10) ∧
    (startedDisplay d0 n).2 3 = some (n / 4 % 60 % 10) ∧
    (startedDisplay d0 n).2 1 = some (25 * (n % 4) / 10) ∧
    (startedDisplay d0 n).2 0 = some (25 * (n % 4) % 10) := by
  have hinv : CountInv 0 (stopwatch_keypress (stopwatch_init powerUp).1 43).1 := by
    unfold CountInv; decide
  have hshow : (stopwatch_keypress (stopwatch_init powerUp).1 43).1.showtime = 0 := by decide
  have hhex : HexMirror (stopwatch_keypress (stopwatch_init powerUp).1 43).1 := by
    unfold HexMirror; decide
  have hd : ShowsElapsed 0 (display d0 (stopwatch_init powerUp).2) :=
    ⟨rfl, rfl, rfl, rfl, rfl, rfl⟩
  have h := drawsDisplay_showsElapsed n 0 _ _ (by omega) hinv hshow hhex hd
  rw [Nat.zero_add] at h
  have e : n / 240 = n / 4 / 60 := by rw [Nat.div_div_eq_div_mul]
  rw [e]
  exact h

/-- Witness for C19: 1234 quarter ticks read 05:08.50. -/
theorem C19_display_shows_elapsed_witness :
    (startedDisplay blankDisplay 1234).2 7 = some (1234 / 240 / 10) ∧
    (startedDisplay blankDisplay 1234).2 6 = some (1234 / 240 % 10) ∧
    (startedDisplay blankDisplay 1234).2 4 = some (1234 / 4 % 60 / 10) ∧
    (startedDisplay blankDisplay 1234).2 3 = some (1234 / 4 % 60 % 10) ∧
    (startedDisplay blankDisplay 1234).2 1 = some (25 * (1234 % 4) / 10) ∧
    (startedDisplay blankDisplay 1234).2 0 = some (25 * (1234 % 4) % 10) :=
  C19_display_shows_elapsed blankDisplay 1234 (by decide)
